import Mathlib

/-!
# Verification of the resilient fetch helper (`fetchWithRetry`)

Shallow embedding of `src/app/utils/fetchWithRetry.ts` from the `cravii`
repository, together with proofs of the spec's claims about it.

Modelling conventions:
* JS header objects become association lists where a later binding for a key
  overrides an earlier one (object-spread semantics); `hLookup` returns the
  last binding for a key.
* The platform transport (`fetch`) is abstracted as a function from the
  attempt index to either a thrown exception message (`Except.error`) or a
  `Response` value.  A timeout abort surfaces to the code as a transport
  exception, so it is subsumed by the `Except.error` case.
* `AsyncStorage` holds the single key `sessionCookie`; its value is an
  `Option String` threaded through the loop.  Every externally visible side
  effect (storage read, transport call, backoff wait, storage write) is
  recorded in an event trace.
* JS numbers for `retries` are modelled as `Int` (the claims only exercise
  integral values); delays are `Nat`.
* `JSON.parse` is modelled by a JSON-grammar validator `jsonValid`; the dev
  build's diagnostic log throws exactly when `options.body` is a non-empty
  string that is not valid JSON.
-/

namespace Cravii

/-- Header maps as association lists; later entries override earlier ones,
matching JS object-spread semantics. -/
abbrev Headers := List (String × String)

/-- Look up a header key: the LAST binding wins (object-spread override). -/
def hLookup (hs : Headers) (k : String) : Option String :=
  (hs.reverse.find? (fun p => p.1 == k)).map Prod.snd

/-- The fixed User-Agent rotation list (lines 10-14 of the source). -/
def userAgents : List String :=
  ["Mozilla/5.0 (Windows NT 10.0; Win64; x64) AppleWebKit/537.36 (KHTML, like Gecko) Chrome/117.0.0.0 Safari/537.36",
   "Mozilla/5.0 (Macintosh; Intel Mac OS X 10_15_7) AppleWebKit/605.1.15 (KHTML, like Gecko) Version/16.0 Safari/605.1.15",
   "Mozilla/5.0 (iPhone; CPU iPhone OS 16_0 like Mac OS X) AppleWebKit/605.1.15 (KHTML, like Gecko) Version/16.0 Mobile/15E148 Safari/604.1"]

/-- Line 17: `const currentUserAgent = userAgents[i % userAgents.length]`. -/
def currentUserAgent (i : Nat) : String :=
  userAgents.getD (i % userAgents.length) ""

/-- The computed default headers of one attempt (lines 18-25, before the
caller's headers are spread in). -/
def defaultHeaders (ua : String) : Headers :=
  [("Accept", "application/json"),
   ("Content-Type", "application/json"),
   ("User-Agent", ua),
   ("Accept-Encoding", "gzip, deflate, br"),
   ("Connection", "keep-alive")]

/-- A transport response, exposing exactly what the helper inspects:
`status` (hence `ok`), the body text read by `response.text()`, and the
`set-cookie` response header. -/
structure Response where
  status : Nat
  body : String
  setCookie : Option String
deriving Repr, DecidableEq

/-- Field `response.ok` per the fetch specification: status in 200-299. -/
def Response.ok (r : Response) : Bool :=
  200 ≤ r.status && r.status ≤ 299

/-- The transport: attempt index to thrown-exception message or response. -/
abbrev Transport := Nat → Except String Response

/-- Caller-supplied request options; only the fields the helper reads
(`options.headers`, `options.body`) are modelled, the rest (`url`, `method`)
is forwarded opaquely to the transport. -/
structure RequestOptions where
  headers : Headers := []
  body : Option String := none
deriving Repr, DecidableEq

/-- JS exception values flowing through the helper's `try`/`catch`. -/
inductive JsError where
  /-- an exception thrown by the transport call itself (network error, abort) -/
  | fetchErr (msg : String)
  /-- the `new Error` built from a non-ok response (line 64): `HTTP status - body` -/
  | httpErr (status : Nat) (body : String)
  /-- a `SyntaxError` thrown by `JSON.parse(options.body)` inside the dev log
      (line 54); the argument is the offending input -/
  | jsonParseErr (input : String)
deriving Repr, DecidableEq

/-- Reads `error.message` as line 80 does.  The text of a `SyntaxError` from
`JSON.parse` is engine specific; it is modelled by a fixed token and no
theorem below depends on it. -/
def JsError.message : JsError → String
  | .fetchErr m => m
  | .httpErr s b => "HTTP " ++ toString s ++ " - " ++ b
  | .jsonParseErr _ => "Unexpected token in JSON"

/-- Message of the wrapping exhaustion error thrown in the catch block
(line 80): built from the attempt total and the last failure's message. -/
def exhaustWrapMsg (retries : Int) (lastMsg : String) : String :=
  "Fetch failed after " ++ toString retries ++ " attempts: " ++ lastMsg

/-- Message of the bare exhaustion error after the loop (line 84). -/
def exhaustBareMsg (retries : Int) : String :=
  "Fetch failed after " ++ toString retries ++ " attempts"

/-- Externally visible side effects of one invocation, in order. -/
inductive Event where
  /-- the storage read of the session cookie returning `v` (line 27) -/
  | readCookie (v : Option String)
  /-- the transport call of attempt `i` with the built outgoing headers -/
  | call (i : Nat) (headers : Headers)
  /-- a backoff sleep of `ms` milliseconds -/
  | wait (ms : Nat)
  /-- the storage write of the session cookie value `v` (line 70) -/
  | store (v : String)
deriving Repr, DecidableEq

/-- What one invocation ultimately does at its boundary. -/
inductive FetchOutcome where
  /-- the response returned to the caller (line 72) -/
  | success (r : Response)
  /-- the terminal error: `last = some e` is the wrapping throw of line 80,
      `last = none` the bare throw of line 84 (loop body never entered) -/
  | exhausted (retries : Int) (last : Option JsError)
deriving Repr, DecidableEq

/-- The message of the error surfaced to the caller, if any. -/
def FetchOutcome.raisedMessage : FetchOutcome → Option String
  | .success _ => none
  | .exhausted r none => some (exhaustBareMsg r)
  | .exhausted r (some e) => some (exhaustWrapMsg r e.message)

/-- Result of a whole invocation: its event trace, its outcome, and the
final value of the `sessionCookie` storage key. -/
structure RunResult where
  events : List Event
  outcome : FetchOutcome
  storage : Option String
deriving Repr, DecidableEq

/- ### JSON validity, modelling `JSON.parse` acceptance -/

/-- JSON insignificant whitespace. -/
def jsonWs (c : Char) : Bool :=
  c == ' ' || c == '\t' || c == '\n' || c == '\r'

/-- Drop leading JSON whitespace. -/
def skipWs : List Char → List Char
  | [] => []
  | c :: cs => if jsonWs c then skipWs cs else c :: cs

def isDigitCh (c : Char) : Bool := '0' ≤ c && c ≤ '9'

def isHexDigitCh (c : Char) : Bool :=
  isDigitCh c || ('a' ≤ c && c ≤ 'f') || ('A' ≤ c && c ≤ 'F')

/-- the double-quote character -/
def quoteCh : Char := Char.ofNat 34
/-- the backslash character -/
def backslashCh : Char := Char.ofNat 92
/-- left curly brace -/
def lbraceCh : Char := Char.ofNat 123
/-- right curly brace -/
def rbraceCh : Char := Char.ofNat 125

/-- Parse the remainder of a JSON string after its opening quote; returns the
input following the closing quote. -/
def parseStringBody : List Char → Option (List Char)
  | [] => none
  | c :: cs =>
    if c == quoteCh then some cs
    else if c == backslashCh then
      match cs with
      | [] => none
      | e :: cs' =>
        if e == quoteCh || e == backslashCh || e == '/' || e == 'b' ||
            e == 'f' || e == 'n' || e == 'r' || e == 't' then
          parseStringBody cs'
        else if e == 'u' then
          match cs' with
          | h1 :: h2 :: h3 :: h4 :: cs'' =>
            if isHexDigitCh h1 && isHexDigitCh h2 && isHexDigitCh h3 && isHexDigitCh h4 then
              parseStringBody cs''
            else none
          | _ => none
        else none
    else if c.toNat < 32 then none
    else parseStringBody cs

/-- Drop a (possibly empty) run of digits. -/
def skipDigits : List Char → List Char
  | [] => []
  | c :: cs => if isDigitCh c then skipDigits cs else c :: cs

/-- Require at least one digit, then drop the run. -/
def parseDigits1 : List Char → Option (List Char)
  | [] => none
  | c :: cs => if isDigitCh c then some (skipDigits cs) else none

/-- Optional fraction and exponent of a JSON number. -/
def parseFracExp (cs : List Char) : Option (List Char) :=
  let step : Option (List Char) :=
    match cs with
    | '.' :: rest => parseDigits1 rest
    | _ => some cs
  match step with
  | none => none
  | some afterFrac =>
    match afterFrac with
    | e :: rest =>
      if e == 'e' || e == 'E' then
        match rest with
        | s :: r2 => if s == '+' || s == '-' then parseDigits1 r2 else parseDigits1 rest
        | [] => none
      else some afterFrac
    | [] => some []

/-- A JSON number after its optional leading minus sign. -/
def parseNumberTail : List Char → Option (List Char)
  | [] => none
  | c :: rest =>
    if c == '0' then parseFracExp rest
    else if isDigitCh c then parseFracExp (skipDigits rest)
    else none

mutual

/-- Parse one JSON value (fuelled; each recursion step has consumed at least
one character, so fuel = input length + 1 always suffices). -/
def parseValue : Nat → List Char → Option (List Char)
  | 0, _ => none
  | fuel+1, cs =>
    match skipWs cs with
    | [] => none
    | c :: rest =>
      if c == quoteCh then parseStringBody rest
      else if c == lbraceCh then
        match skipWs rest with
        | [] => none
        | d :: rest' =>
          if d == rbraceCh then some rest' else parseMembers fuel (d :: rest')
      else if c == '[' then
        match skipWs rest with
        | [] => none
        | d :: rest' =>
          if d == ']' then some rest' else parseElems fuel (d :: rest')
      else if c == 't' then
        match rest with
        | 'r' :: 'u' :: 'e' :: r => some r
        | _ => none
      else if c == 'f' then
        match rest with
        | 'a' :: 'l' :: 's' :: 'e' :: r => some r
        | _ => none
      else if c == 'n' then
        match rest with
        | 'u' :: 'l' :: 'l' :: r => some r
        | _ => none
      else if c == '-' then parseNumberTail rest
      else if isDigitCh c then parseNumberTail (c :: rest)
      else none

/-- Parse the members of a JSON object (positioned at a key). -/
def parseMembers : Nat → List Char → Option (List Char)
  | 0, _ => none
  | fuel+1, cs =>
    match skipWs cs with
    | [] => none
    | c :: rest =>
      if c == quoteCh then
        match parseStringBody rest with
        | none => none
        | some afterKey =>
          match skipWs afterKey with
          | ':' :: afterColon =>
            match parseValue fuel afterColon with
            | none => none
            | some afterVal =>
              match skipWs afterVal with
              | ',' :: r2 => parseMembers fuel r2
              | d :: r2 => if d == rbraceCh then some r2 else none
              | [] => none
          | _ => none
      else none

/-- Parse the elements of a JSON array (positioned at an element). -/
def parseElems : Nat → List Char → Option (List Char)
  | 0, _ => none
  | fuel+1, cs =>
    match parseValue fuel cs with
    | none => none
    | some afterVal =>
      match skipWs afterVal with
      | ',' :: r2 => parseElems fuel r2
      | ']' :: r2 => some r2
      | _ => none

end

/-- Whether `JSON.parse(s)` succeeds: one JSON value then only whitespace. -/
def jsonValid (s : String) : Bool :=
  match parseValue (s.length + 1) s.data with
  | some rest => skipWs rest == []
  | none => false

/-- Whether the log payload expression of line 54 throws: it runs
`JSON.parse` exactly when the body is a truthy (non-empty) string, and
throws when that string is not valid JSON. -/
def logPayloadThrows (body : Option String) : Bool :=
  match body with
  | some b => b != "" && !jsonValid b
  | none => false

/- ### The retry loop -/

/-- The headers actually sent on attempt `i`: computed defaults, then the
caller's headers spread over them (lines 18-25), then — when storage holds a
truthy cookie and `i ≥ 2` — the session cookie assigned last (lines 27-30). -/
def buildHeaders (i : Nat) (callerHeaders : Headers) (storage : Option String) : Headers :=
  let base := defaultHeaders (currentUserAgent i) ++ callerHeaders
  match storage with
  | some c => if c ≠ "" ∧ 2 ≤ i then base ++ [("Cookie", c)] else base
  | none => base

/-- The body of the `for` loop of lines 16-83, fuelled by the number of
remaining iterations (`fuel = retries.toNat - i` throughout).  `i` is the
attempt index, `s` the current value of the `sessionCookie` storage key.

The inner `throw new Error` of line 64 is caught by the function's own
`catch` (line 73), so both a transport exception and a non-retried HTTP
failure reach the same handler: wait `initialDelay * 2^i` and continue when
`i < retries - 1`, otherwise throw the wrapping exhaustion error (line 80).
In a dev build (`__DEV__`), the diagnostic log of lines 49-57 runs before
the 403 check and its `JSON.parse(options.body)` may itself throw into the
same catch. -/
def fetchLoop (t : Transport) (options : RequestOptions) (retries : Int)
    (initialDelay : Nat) (dev : Bool) : Nat → Nat → Option String → RunResult
  | _, 0, s => ⟨[], .exhausted retries none, s⟩
  | i, fuel+1, s =>
    let hdrs := buildHeaders i options.headers s
    let pre : List Event := [.readCookie s, .call i hdrs]
    let onCaught : JsError → RunResult := fun e =>
      if (i : Int) < retries - 1 then
        let rest := fetchLoop t options retries initialDelay dev (i+1) fuel s
        ⟨pre ++ .wait (initialDelay * 2^i) :: rest.events, rest.outcome, rest.storage⟩
      else
        ⟨pre, .exhausted retries (some e), s⟩
    match t i with
    | .error msg => onCaught (.fetchErr msg)
    | .ok resp =>
      if resp.ok then
        match resp.setCookie with
        | some c => ⟨pre ++ [.store c], .success resp, some c⟩
        | none => ⟨pre, .success resp, s⟩
      else if dev && logPayloadThrows options.body then
        onCaught (.jsonParseErr (options.body.getD ""))
      else if resp.status == 403 && decide ((i : Int) < retries - 1) then
        let rest := fetchLoop t options retries initialDelay dev (i+1) fuel s
        ⟨pre ++ .wait (initialDelay * 2^i) :: rest.events, rest.outcome, rest.storage⟩
      else onCaught (.httpErr resp.status resp.body)

/-- The helper `fetchWithRetry` (defaults `retries = 4`,
`initialDelay = 300` as in the source; the timeout parameter only shapes
transport aborts and is absorbed into the transport abstraction). -/
def fetchWithRetry (t : Transport) (options : RequestOptions := {})
    (retries : Int := 4) (initialDelay : Nat := 300) (dev : Bool := false)
    (storage0 : Option String := none) : RunResult :=
  fetchLoop t options retries initialDelay dev 0 retries.toNat storage0

/- ### Trace observations -/

/-- Number of transport calls recorded in a trace. -/
def countCalls (es : List Event) : Nat :=
  es.countP fun e => match e with | .call _ _ => true | _ => false

/-- The backoff delays of a trace, in order. -/
def waitsOf (es : List Event) : List Nat :=
  es.filterMap fun e => match e with | .wait m => some m | _ => none

/-- The calls (by attempt index, `Sum.inl`) and waits (by duration,
`Sum.inr`) of a trace, in order. -/
def callWaitTrace (es : List Event) : List (Nat ⊕ Nat) :=
  es.filterMap fun e => match e with
    | .call i _ => some (Sum.inl i)
    | .wait m => some (Sum.inr m)
    | _ => none

/-- The call/wait shape of `k` attempts starting at index `i` with initial
delay `d`: a call at each index, a wait of `d * 2^j` between attempt `j` and
attempt `j+1`, no wait before the first or after the last. -/
def attemptTrace (d : Nat) : Nat → Nat → List (Nat ⊕ Nat)
  | _, 0 => []
  | i, 1 => [Sum.inl i]
  | i, k+2 => Sum.inl i :: Sum.inr (d * 2^i) :: attemptTrace d (i+1) (k+1)

/- ### Header lookup facts -/

theorem hLookup_append (xs ys : Headers) (k : String) :
    hLookup (xs ++ ys) k = (hLookup ys k).or (hLookup xs k) := by
  unfold hLookup
  rw [List.reverse_append, List.find?_append]
  cases ys.reverse.find? fun p => p.1 == k <;> simp

theorem hLookup_snoc_self (xs : Headers) (k v : String) :
    hLookup (xs ++ [(k, v)]) k = some v := by
  unfold hLookup
  rw [List.reverse_append]
  simp [List.find?]

theorem hLookup_snoc_ne (xs : Headers) (k k' v : String) (h : k' ≠ k) :
    hLookup (xs ++ [(k', v)]) k = hLookup xs k := by
  unfold hLookup
  rw [List.reverse_append]
  simp [List.find?, beq_eq_false_iff_ne.mpr h]

/- ### buildHeaders facts -/

theorem buildHeaders_of_lt_two (i : Nat) (ch : Headers) (s : Option String)
    (hi : i < 2) :
    buildHeaders i ch s = defaultHeaders (currentUserAgent i) ++ ch := by
  cases s with
  | none => rfl
  | some c =>
    simp only [buildHeaders]
    rw [if_neg]
    rintro ⟨-, h2⟩
    omega

theorem buildHeaders_cookie (i : Nat) (ch : Headers) (c : String)
    (hc : c ≠ "") (hi : 2 ≤ i) :
    buildHeaders i ch (some c) =
      defaultHeaders (currentUserAgent i) ++ ch ++ [("Cookie", c)] := by
  simp only [buildHeaders]
  rw [if_pos ⟨hc, hi⟩]

/-- The `Cookie` entry is the only part of the outgoing headers that can
depend on the stored session cookie. -/
theorem buildHeaders_lookup_ne_cookie (i : Nat) (ch : Headers) (s : Option String)
    (k : String) (hk : k ≠ "Cookie") :
    hLookup (buildHeaders i ch s) k =
      (hLookup ch k).or (hLookup (defaultHeaders (currentUserAgent i)) k) := by
  cases s with
  | none => exact hLookup_append ..
  | some c =>
    simp only [buildHeaders]
    by_cases h : c ≠ "" ∧ 2 ≤ i
    · rw [if_pos h, hLookup_snoc_ne _ _ _ _ (Ne.symm hk), hLookup_append]
    · rw [if_neg h, hLookup_append]

/- ### Step equations for the loop -/

theorem fetchLoop_fuel_zero (t : Transport) (o : RequestOptions) (r : Int)
    (d : Nat) (dev : Bool) (i : Nat) (s : Option String) :
    fetchLoop t o r d dev i 0 s = ⟨[], .exhausted r none, s⟩ := rfl

theorem fetchLoop_error_retry (t : Transport) (o : RequestOptions) (r : Int)
    (d : Nat) (dev : Bool) (i f : Nat) (s : Option String) (msg : String)
    (hti : t i = .error msg) (hg : (i : Int) < r - 1) :
    fetchLoop t o r d dev i (f+1) s =
      ⟨.readCookie s :: .call i (buildHeaders i o.headers s) ::
         .wait (d * 2^i) :: (fetchLoop t o r d dev (i+1) f s).events,
       (fetchLoop t o r d dev (i+1) f s).outcome,
       (fetchLoop t o r d dev (i+1) f s).storage⟩ := by
  simp only [fetchLoop, hti, if_pos hg]
  rfl

theorem fetchLoop_error_last (t : Transport) (o : RequestOptions) (r : Int)
    (d : Nat) (dev : Bool) (i f : Nat) (s : Option String) (msg : String)
    (hti : t i = .error msg) (hg : ¬ ((i : Int) < r - 1)) :
    fetchLoop t o r d dev i (f+1) s =
      ⟨[.readCookie s, .call i (buildHeaders i o.headers s)],
       .exhausted r (some (.fetchErr msg)), s⟩ := by
  simp only [fetchLoop, hti, if_neg hg]

theorem fetchLoop_success_store (t : Transport) (o : RequestOptions) (r : Int)
    (d : Nat) (dev : Bool) (i f : Nat) (s : Option String) (resp : Response)
    (c : String) (hti : t i = .ok resp) (hok : resp.ok = true)
    (hsc : resp.setCookie = some c) :
    fetchLoop t o r d dev i (f+1) s =
      ⟨[.readCookie s, .call i (buildHeaders i o.headers s), .store c],
       .success resp, some c⟩ := by
  simp [fetchLoop, hti, hok, hsc]

theorem fetchLoop_success_plain (t : Transport) (o : RequestOptions) (r : Int)
    (d : Nat) (dev : Bool) (i f : Nat) (s : Option String) (resp : Response)
    (hti : t i = .ok resp) (hok : resp.ok = true)
    (hsc : resp.setCookie = none) :
    fetchLoop t o r d dev i (f+1) s =
      ⟨[.readCookie s, .call i (buildHeaders i o.headers s)],
       .success resp, s⟩ := by
  simp [fetchLoop, hti, hok, hsc]

theorem fetchLoop_fail_retry (t : Transport) (o : RequestOptions) (r : Int)
    (d : Nat) (dev : Bool) (i f : Nat) (s : Option String) (resp : Response)
    (hti : t i = .ok resp) (hok : resp.ok = false) (hg : (i : Int) < r - 1) :
    fetchLoop t o r d dev i (f+1) s =
      ⟨.readCookie s :: .call i (buildHeaders i o.headers s) ::
         .wait (d * 2^i) :: (fetchLoop t o r d dev (i+1) f s).events,
       (fetchLoop t o r d dev (i+1) f s).outcome,
       (fetchLoop t o r d dev (i+1) f s).storage⟩ := by
  simp only [fetchLoop, hti, hok, Bool.false_eq_true, if_false, if_pos hg,
    decide_eq_true hg, Bool.and_true]
  cases hl : dev && logPayloadThrows o.body
  · simp only [Bool.false_eq_true, if_false]
    cases h403 : resp.status == 403
    · simp only [Bool.false_eq_true, if_false, if_pos hg]
      rfl
    · rfl
  · rfl

theorem fetchLoop_fail_last (t : Transport) (o : RequestOptions) (r : Int)
    (d : Nat) (dev : Bool) (i f : Nat) (s : Option String) (resp : Response)
    (hti : t i = .ok resp) (hok : resp.ok = false) (hg : ¬ ((i : Int) < r - 1)) :
    fetchLoop t o r d dev i (f+1) s =
      ⟨[.readCookie s, .call i (buildHeaders i o.headers s)],
       .exhausted r (some (if dev && logPayloadThrows o.body then
           .jsonParseErr (o.body.getD "") else .httpErr resp.status resp.body)),
       s⟩ := by
  simp only [fetchLoop, hti, hok, Bool.false_eq_true, if_false, if_neg hg,
    decide_eq_false hg, Bool.and_false]
  cases hl : dev && logPayloadThrows o.body
  · simp only [Bool.false_eq_true, if_false, if_neg hg]
  · rfl

/- ### countCalls over trace constructors -/

theorem countCalls_nil : countCalls [] = 0 := rfl

theorem countCalls_cons_readCookie (v : Option String) (es : List Event) :
    countCalls (.readCookie v :: es) = countCalls es := by
  simp [countCalls, List.countP_cons]

theorem countCalls_cons_wait (m : Nat) (es : List Event) :
    countCalls (.wait m :: es) = countCalls es := by
  simp [countCalls, List.countP_cons]

theorem countCalls_cons_store (c : String) (es : List Event) :
    countCalls (.store c :: es) = countCalls es := by
  simp [countCalls, List.countP_cons]

theorem countCalls_cons_call (i : Nat) (h : Headers) (es : List Event) :
    countCalls (.call i h :: es) = countCalls es + 1 := by
  simp [countCalls, List.countP_cons]

/- ### Claim C1 -/

/-- Loop-level form of C1: from any attempt index, if the transport throws
on every attempt, every remaining attempt is made and the run ends in the
wrapping exhaustion error around the last failure. -/
theorem fetchLoop_allFail (t : Transport) (o : RequestOptions) (d : Nat)
    (dev : Bool) (msgs : Nat → String) (ht : ∀ j, t j = .error (msgs j))
    (n : Nat) :
    ∀ fuel i s, i + fuel = n → 1 ≤ fuel →
      countCalls (fetchLoop t o (n : Int) d dev i fuel s).events = fuel ∧
      (fetchLoop t o (n : Int) d dev i fuel s).outcome =
        .exhausted (n : Int) (some (.fetchErr (msgs (n-1)))) ∧
      (fetchLoop t o (n : Int) d dev i fuel s).storage = s := by
  intro fuel
  induction fuel with
  | zero => intro i s _ h1; exact absurd h1 (by omega)
  | succ f ih =>
    intro i s hn _
    by_cases hg : (i : Int) < (n : Int) - 1
    · have hf : 1 ≤ f := by omega
      rw [fetchLoop_error_retry t o (n : Int) d dev i f s (msgs i) (ht i) hg]
      obtain ⟨h1, h2, h3⟩ := ih (i+1) s (by omega) hf
      refine ⟨?_, h2, h3⟩
      rw [countCalls_cons_readCookie, countCalls_cons_call, countCalls_cons_wait, h1]
    · have hf : f = 0 := by omega
      have hi : i = n - 1 := by omega
      rw [fetchLoop_error_last t o (n : Int) d dev i f s (msgs i) (ht i) hg]
      refine ⟨?_, by rw [hi], rfl⟩
      rw [countCalls_cons_readCookie, countCalls_cons_call, countCalls_nil, hf]

/-- C1: for every `retries = n ≥ 1`, if the transport throws on every call,
`fetchWithRetry` makes exactly `n` transport calls and surfaces exactly one
terminal error — the exhaustion error wrapping the last failure's message
and stating the total of `n` attempts; no intermediate failure escapes and
storage is untouched. -/
theorem fetchWithRetry_allFail (t : Transport) (o : RequestOptions)
    (d : Nat) (dev : Bool) (s0 : Option String) (msgs : Nat → String)
    (ht : ∀ j, t j = .error (msgs j)) (n : Nat) (hn : 1 ≤ n) :
    countCalls (fetchWithRetry t o (n : Int) d dev s0).events = n ∧
    (fetchWithRetry t o (n : Int) d dev s0).outcome =
      .exhausted (n : Int) (some (.fetchErr (msgs (n-1)))) ∧
    (fetchWithRetry t o (n : Int) d dev s0).outcome.raisedMessage =
      some (exhaustWrapMsg (n : Int) (msgs (n-1))) ∧
    (fetchWithRetry t o (n : Int) d dev s0).storage = s0 := by
  have e : ((n : Int)).toNat = n := by simp
  unfold fetchWithRetry
  rw [e]
  obtain ⟨h1, h2, h3⟩ := fetchLoop_allFail t o d dev msgs ht n n 0 s0 (by omega) hn
  exact ⟨h1, h2, by rw [h2]; rfl, h3⟩

/-- Witness for C1 at `n = 2` with an always-throwing transport. -/
theorem fetchWithRetry_allFail_check :
    countCalls (fetchWithRetry (fun _ => .error "Network request failed") {}
      ((2 : Nat) : Int) 300 false none).events = 2 ∧
    (fetchWithRetry (fun _ => .error "Network request failed") {}
      ((2 : Nat) : Int) 300 false none).outcome.raisedMessage =
      some "Fetch failed after 2 attempts: Network request failed" := by
  obtain ⟨h1, h2, h3, h4⟩ := fetchWithRetry_allFail
    (fun _ => .error "Network request failed") {} 300 false none
    (fun _ => "Network request failed") (fun _ => rfl) 2 (by norm_num)
  exact ⟨h1, h3⟩

/- ### Claim C10 -/

/-- C10: called with `retries ≤ 0` (outside the documented precondition),
the loop body is never entered: no transport call, no session-cookie
storage read or write (the trace is empty), and the bare exhaustion error
of line 84 is thrown, stating the given attempt count. -/
theorem fetchWithRetry_nonpositive_retries (t : Transport) (o : RequestOptions)
    (r : Int) (d : Nat) (dev : Bool) (s0 : Option String) (hr : r ≤ 0) :
    fetchWithRetry t o r d dev s0 = ⟨[], .exhausted r none, s0⟩ ∧
    (fetchWithRetry t o r d dev s0).outcome.raisedMessage =
      some (exhaustBareMsg r) := by
  have h0 : r.toNat = 0 := Int.toNat_of_nonpos hr
  unfold fetchWithRetry
  rw [h0]
  exact ⟨rfl, rfl⟩

/-- Witness for C10 at `retries = 0`: empty trace, storage untouched, and
the error message reads `Fetch failed after 0 attempts`. -/
theorem fetchWithRetry_nonpositive_retries_check :
    (0 : Int) ≤ 0 ∧
    fetchWithRetry (fun _ => .error "down") {} 0 300 false (some "sid=1") =
      ⟨[], .exhausted 0 none, some "sid=1"⟩ ∧
    (fetchWithRetry (fun _ => .error "down") {} 0 300 false
        (some "sid=1")).outcome.raisedMessage =
      some "Fetch failed after 0 attempts" := by
  obtain ⟨h1, h2⟩ := fetchWithRetry_nonpositive_retries
    (fun _ => .error "down") {} 0 300 false (some "sid=1") (le_refl 0)
  exact ⟨le_refl 0, h1, h2⟩

/- ### Outgoing headers of every transport call (shared by C3, C7, C8) -/

/-- Storage is only written at the very end of a run (on a success response),
so every transport call of one invocation builds its headers from the storage
value the invocation started with. -/
theorem fetchLoop_call_mem (t : Transport) (o : RequestOptions) (r : Int)
    (d : Nat) (dev : Bool) :
    ∀ fuel i s j h, Event.call j h ∈ (fetchLoop t o r d dev i fuel s).events →
      h = buildHeaders j o.headers s := by
  intro fuel
  induction fuel with
  | zero =>
    intro i s j h hm
    rw [fetchLoop_fuel_zero] at hm
    simp at hm
  | succ f ih =>
    intro i s j h hm
    have onList : ∀ es, Event.call j h ∈
        (Event.readCookie s :: Event.call i (buildHeaders i o.headers s) :: es) →
        (Event.call j h ∈ es → h = buildHeaders j o.headers s) →
        h = buildHeaders j o.headers s := by
      intro es hmem hrest
      rcases List.mem_cons.mp hmem with heq | hmem'
      · exact absurd heq (by simp)
      rcases List.mem_cons.mp hmem' with heq | hmem''
      · injection heq with e1 e2
        subst e1
        exact e2
      · exact hrest hmem''
    have onTail : (Event.call j h ∈ (fetchLoop t o r d dev (i+1) f s).events →
        h = buildHeaders j o.headers s) →
        Event.call j h ∈
          Event.wait (d * 2^i) :: (fetchLoop t o r d dev (i+1) f s).events →
        h = buildHeaders j o.headers s := by
      intro hr hmem
      rcases List.mem_cons.mp hmem with heq | hmem'
      · exact absurd heq (by simp)
      · exact hr hmem'
    rcases hti : t i with msg | resp
    · by_cases hg : (i : Int) < r - 1
      · rw [fetchLoop_error_retry t o r d dev i f s msg hti hg] at hm
        exact onList _ hm (onTail (ih (i+1) s j h))
      · rw [fetchLoop_error_last t o r d dev i f s msg hti hg] at hm
        exact onList _ hm (fun hx => absurd hx (by simp))
    · cases hok : resp.ok
      · by_cases hg : (i : Int) < r - 1
        · rw [fetchLoop_fail_retry t o r d dev i f s resp hti hok hg] at hm
          exact onList _ hm (onTail (ih (i+1) s j h))
        · rw [fetchLoop_fail_last t o r d dev i f s resp hti hok hg] at hm
          exact onList _ hm (fun hx => absurd hx (by simp))
      · rcases hsc : resp.setCookie with - | c
        · rw [fetchLoop_success_plain t o r d dev i f s resp hti hok hsc] at hm
          exact onList _ hm (fun hx => absurd hx (by simp))
        · rw [fetchLoop_success_store t o r d dev i f s resp c hti hok hsc] at hm
          refine onList _ hm ?_
          intro hmem2
          rcases List.mem_cons.mp hmem2 with heq | hmem3
          · exact absurd heq (by simp)
          · exact absurd hmem3 (by simp)

/- ### Claim C3 -/

/-- C3: on every transport call of every invocation, the stored session
cookie is never attached on attempt indices 0 and 1 (those attempts' headers
are just the computed defaults merged with the caller's headers, independent
of storage), and on every attempt index ≥ 2 the cookie header carries the
stored value whenever a non-empty value is in storage when the attempt
builds its headers. -/
theorem sessionCookie_attachment (t : Transport) (o : RequestOptions)
    (r : Int) (d : Nat) (dev : Bool) (s0 : Option String) (i : Nat)
    (h : Headers)
    (hmem : Event.call i h ∈ (fetchWithRetry t o r d dev s0).events) :
    (i < 2 → h = defaultHeaders (currentUserAgent i) ++ o.headers) ∧
    (2 ≤ i → ∀ c, s0 = some c → c ≠ "" → hLookup h "Cookie" = some c) := by
  have hh : h = buildHeaders i o.headers s0 :=
    fetchLoop_call_mem t o r d dev r.toNat 0 s0 i h hmem
  subst hh
  constructor
  · intro hi
    exact buildHeaders_of_lt_two i o.headers s0 hi
  · rintro hi c rfl hc
    rw [buildHeaders_cookie i o.headers c hc hi]
    exact hLookup_snoc_self _ _ _

/-- Witness for C3: a run with `retries = 3`, a stored cookie `sid=1`, and a
transport that always returns HTTP 403; attempt 2 attaches the cookie. -/
theorem sessionCookie_attachment_check :
    Event.call 2 (buildHeaders 2 [] (some "sid=1")) ∈
      (fetchWithRetry (fun _ => .ok ⟨403, "denied", none⟩) {} 3 300 false
        (some "sid=1")).events ∧
    hLookup (buildHeaders 2 [] (some "sid=1")) "Cookie" = some "sid=1" := by
  have hmem : Event.call 2 (buildHeaders 2 [] (some "sid=1")) ∈
      (fetchWithRetry (fun _ => .ok ⟨403, "denied", none⟩) {} 3 300 false
        (some "sid=1")).events := by decide
  refine ⟨hmem, ?_⟩
  exact (sessionCookie_attachment (fun _ => .ok ⟨403, "denied", none⟩) {} 3
    300 false (some "sid=1") 2 _ hmem).2 (by norm_num) "sid=1" rfl
    (by decide)

/- ### Claim C7 -/

/-- C7: on every transport call, for every header key other than the
session-cookie injection of C3, the outgoing value is the caller-supplied
one when present and the computed default otherwise — caller headers take
precedence over the computed defaults on every collision. -/
theorem headers_merge_caller_precedence (t : Transport) (o : RequestOptions)
    (r : Int) (d : Nat) (dev : Bool) (s0 : Option String) (i : Nat)
    (h : Headers)
    (hmem : Event.call i h ∈ (fetchWithRetry t o r d dev s0).events)
    (k : String) (hk : k ≠ "Cookie") :
    hLookup h k =
      (hLookup o.headers k).or
        (hLookup (defaultHeaders (currentUserAgent i)) k) := by
  have hh : h = buildHeaders i o.headers s0 :=
    fetchLoop_call_mem t o r d dev r.toNat 0 s0 i h hmem
  subst hh
  exact buildHeaders_lookup_ne_cookie i o.headers s0 k hk

/-- Witness for C7: the caller overrides `Accept`; on the outgoing call the
caller's value wins over the computed default. -/
theorem headers_merge_caller_precedence_check :
    Event.call 0 (buildHeaders 0 [("Accept", "text/html")] none) ∈
      (fetchWithRetry (fun _ => .ok ⟨200, "", none⟩)
        ⟨[("Accept", "text/html")], none⟩ 1 300 false none).events ∧
    hLookup (buildHeaders 0 [("Accept", "text/html")] none) "Accept" =
      some "text/html" := by
  have hmem : Event.call 0 (buildHeaders 0 [("Accept", "text/html")] none) ∈
      (fetchWithRetry (fun _ => .ok ⟨200, "", none⟩)
        ⟨[("Accept", "text/html")], none⟩ 1 300 false none).events := by decide
  refine ⟨hmem, ?_⟩
  have h := headers_merge_caller_precedence (fun _ => .ok ⟨200, "", none⟩)
    ⟨[("Accept", "text/html")], none⟩ 1 300 false none 0 _ hmem "Accept"
    (by decide)
  rw [h]
  rfl

/- ### Claim C8 -/

/-- C8: on every transport call, the User-Agent header value equals the
caller's override when one is supplied, and otherwise the rotation entry
`userAgents[i % userAgents.length]` for the attempt index `i` — so the
identity the client selects on attempt `i` is always
`rotationList[i mod len(rotationList)]`. -/
theorem userAgent_rotation (t : Transport) (o : RequestOptions)
    (r : Int) (d : Nat) (dev : Bool) (s0 : Option String) (i : Nat)
    (h : Headers)
    (hmem : Event.call i h ∈ (fetchWithRetry t o r d dev s0).events) :
    hLookup h "User-Agent" =
      (hLookup o.headers "User-Agent").or
        (some (userAgents.getD (i % userAgents.length) "")) := by
  have hh : h = buildHeaders i o.headers s0 :=
    fetchLoop_call_mem t o r d dev r.toNat 0 s0 i h hmem
  subst hh
  rw [buildHeaders_lookup_ne_cookie i o.headers s0 "User-Agent" (by decide)]
  rfl

/-- Witness for C8: with `retries = 4` and no caller override, attempt 3
wraps around the three-element rotation list back to its first entry. -/
theorem userAgent_rotation_check :
    Event.call 3 (buildHeaders 3 [] none) ∈
      (fetchWithRetry (fun _ => .error "down") {} 4 300 false none).events ∧
    hLookup (buildHeaders 3 [] none) "User-Agent" =
      some (userAgents.getD (3 % userAgents.length) "") := by
  have hmem : Event.call 3 (buildHeaders 3 [] none) ∈
      (fetchWithRetry (fun _ => .error "down") {} 4 300 false none).events := by
    decide
  refine ⟨hmem, ?_⟩
  have h := userAgent_rotation (fun _ => .error "down") {} 4 300 false none
    3 _ hmem
  rw [h]
  rfl

/- ### Claim C5 -/

theorem status403_not_ok (resp : Response) (h : resp.status = 403) :
    resp.ok = false := by
  simp [Response.ok, h]

/-- Loop-level form of C5: while every attempt before the last returns
HTTP 403, each waits and retries; the first success response ends the run. -/
theorem fetchLoop_403_then_success (t : Transport) (o : RequestOptions)
    (d : Nat) (dev : Bool) (n : Nat) (resp : Response) (hr : resp.ok = true)
    (f403 : Nat → Response)
    (hfail : ∀ j, j < n - 1 → t j = .ok (f403 j) ∧ (f403 j).status = 403)
    (hlast : t (n-1) = .ok resp) :
    ∀ fuel i s, i + fuel = n → 1 ≤ fuel →
      countCalls (fetchLoop t o (n : Int) d dev i fuel s).events = fuel ∧
      (fetchLoop t o (n : Int) d dev i fuel s).outcome = .success resp := by
  intro fuel
  induction fuel with
  | zero => intro i s _ h1; exact absurd h1 (by omega)
  | succ f ih =>
    intro i s hn _
    by_cases hg : (i : Int) < (n : Int) - 1
    · have hf : 1 ≤ f := by omega
      have hi : i < n - 1 := by omega
      obtain ⟨hti, h403⟩ := hfail i hi
      have hok : (f403 i).ok = false := status403_not_ok _ h403
      rw [fetchLoop_fail_retry t o (n : Int) d dev i f s (f403 i) hti hok hg]
      obtain ⟨h1, h2⟩ := ih (i+1) s (by omega) hf
      refine ⟨?_, h2⟩
      rw [countCalls_cons_readCookie, countCalls_cons_call,
        countCalls_cons_wait, h1]
    · have hf0 : f = 0 := by omega
      have hi : i = n - 1 := by omega
      subst hf0
      subst hi
      rcases hsc : resp.setCookie with - | c
      · rw [fetchLoop_success_plain t o (n : Int) d dev (n-1) 0 s resp hlast
          hr hsc]
        exact ⟨by rw [countCalls_cons_readCookie, countCalls_cons_call,
          countCalls_nil], rfl⟩
      · rw [fetchLoop_success_store t o (n : Int) d dev (n-1) 0 s resp c hlast
          hr hsc]
        exact ⟨by rw [countCalls_cons_readCookie, countCalls_cons_call,
          countCalls_cons_store, countCalls_nil], rfl⟩

/-- C5: for every `retries = n ≥ 2`, if the transport returns HTTP 403 on
attempts 1..n-1 (indices 0..n-2) and a 2xx success on attempt n (index
n-1), `fetchWithRetry` returns the attempt-n response without raising, and
makes exactly `n` transport calls — none after the first success. -/
theorem fetchWithRetry_403_prefix_success (t : Transport) (o : RequestOptions)
    (d : Nat) (dev : Bool) (s0 : Option String) (n : Nat) (hn : 2 ≤ n)
    (resp : Response) (hr : resp.ok = true) (f403 : Nat → Response)
    (hfail : ∀ j, j < n - 1 → t j = .ok (f403 j) ∧ (f403 j).status = 403)
    (hlast : t (n-1) = .ok resp) :
    (fetchWithRetry t o (n : Int) d dev s0).outcome = .success resp ∧
    countCalls (fetchWithRetry t o (n : Int) d dev s0).events = n := by
  unfold fetchWithRetry
  rw [show ((n : Int)).toNat = n by simp]
  obtain ⟨h1, h2⟩ := fetchLoop_403_then_success t o d dev n resp hr f403
    hfail hlast n 0 s0 (by omega) (by omega)
  exact ⟨h2, h1⟩

/-- Witness for C5 at `n = 2`: one 403, then a 200 returned to the caller. -/
theorem fetchWithRetry_403_prefix_success_check :
    (fetchWithRetry
      (fun j => if j = 0 then .ok ⟨403, "denied", none⟩ else .ok ⟨200, "ok", none⟩)
      {} ((2 : Nat) : Int) 300 false none).outcome = .success ⟨200, "ok", none⟩ ∧
    countCalls (fetchWithRetry
      (fun j => if j = 0 then .ok ⟨403, "denied", none⟩ else .ok ⟨200, "ok", none⟩)
      {} ((2 : Nat) : Int) 300 false none).events = 2 := by
  refine fetchWithRetry_403_prefix_success _ {} 300 false none 2 (by norm_num)
    ⟨200, "ok", none⟩ (by decide) (fun _ => ⟨403, "denied", none⟩) ?_ rfl
  intro j hj
  have hj0 : j = 0 := by omega
  subst hj0
  exact ⟨rfl, rfl⟩

/- ### Claim C6 -/

theorem callWaitTrace_nil : callWaitTrace [] = [] := rfl

theorem callWaitTrace_cons_readCookie (v : Option String) (es : List Event) :
    callWaitTrace (.readCookie v :: es) = callWaitTrace es := by
  simp [callWaitTrace]

theorem callWaitTrace_cons_store (c : String) (es : List Event) :
    callWaitTrace (.store c :: es) = callWaitTrace es := by
  simp [callWaitTrace]

theorem callWaitTrace_cons_call (i : Nat) (h : Headers) (es : List Event) :
    callWaitTrace (.call i h :: es) = Sum.inl i :: callWaitTrace es := by
  simp [callWaitTrace]

theorem callWaitTrace_cons_wait (m : Nat) (es : List Event) :
    callWaitTrace (.wait m :: es) = Sum.inr m :: callWaitTrace es := by
  simp [callWaitTrace]

/-- Loop-level form of C6: from attempt `i`, the calls and waits of the rest
of the run form `attemptTrace d i k` for some number `k` of attempts
actually made — a wait of `d * 2^j` strictly between attempt `j` and
attempt `j+1`, and nothing before the first call or after the last. -/
theorem fetchLoop_callWaitTrace (t : Transport) (o : RequestOptions)
    (r : Int) (d : Nat) (dev : Bool) :
    ∀ fuel i s, i + fuel = r.toNat →
      ∃ k, k ≤ fuel ∧ (1 ≤ fuel → 1 ≤ k) ∧
        callWaitTrace (fetchLoop t o r d dev i fuel s).events =
          attemptTrace d i k := by
  intro fuel
  induction fuel with
  | zero =>
    intro i s _
    exact ⟨0, le_refl 0, by omega, by rw [fetchLoop_fuel_zero]; simp [attemptTrace, callWaitTrace]⟩
  | succ f ih =>
    intro i s hn
    rcases hti : t i with msg | resp
    · by_cases hg : (i : Int) < r - 1
      · have hf : 1 ≤ f := by omega
        rw [fetchLoop_error_retry t o r d dev i f s msg hti hg]
        obtain ⟨k, hk1, hk2, hk3⟩ := ih (i+1) s (by omega)
        obtain ⟨k', rfl⟩ : ∃ k', k = k' + 1 := ⟨k - 1, by omega⟩
        refine ⟨k' + 2, by omega, by omega, ?_⟩
        rw [callWaitTrace_cons_readCookie, callWaitTrace_cons_call,
          callWaitTrace_cons_wait, hk3]
        rfl
      · rw [fetchLoop_error_last t o r d dev i f s msg hti hg]
        exact ⟨1, by omega, by omega, by
          rw [callWaitTrace_cons_readCookie, callWaitTrace_cons_call,
            callWaitTrace_nil]
          simp [attemptTrace]⟩
    · cases hok : resp.ok
      · by_cases hg : (i : Int) < r - 1
        · have hf : 1 ≤ f := by omega
          rw [fetchLoop_fail_retry t o r d dev i f s resp hti hok hg]
          obtain ⟨k, hk1, hk2, hk3⟩ := ih (i+1) s (by omega)
          obtain ⟨k', rfl⟩ : ∃ k', k = k' + 1 := ⟨k - 1, by omega⟩
          refine ⟨k' + 2, by omega, by omega, ?_⟩
          rw [callWaitTrace_cons_readCookie, callWaitTrace_cons_call,
            callWaitTrace_cons_wait, hk3]
          rfl
        · rw [fetchLoop_fail_last t o r d dev i f s resp hti hok hg]
          exact ⟨1, by omega, by omega, by
            rw [callWaitTrace_cons_readCookie, callWaitTrace_cons_call,
              callWaitTrace_nil]
            simp [attemptTrace]⟩
      · rcases hsc : resp.setCookie with - | c
        · rw [fetchLoop_success_plain t o r d dev i f s resp hti hok hsc]
          exact ⟨1, by omega, by omega, by
            rw [callWaitTrace_cons_readCookie, callWaitTrace_cons_call,
              callWaitTrace_nil]
            simp [attemptTrace]⟩
        · rw [fetchLoop_success_store t o r d dev i f s resp c hti hok hsc]
          exact ⟨1, by omega, by omega, by
            rw [callWaitTrace_cons_readCookie, callWaitTrace_cons_call,
              callWaitTrace_cons_store, callWaitTrace_nil]
            simp [attemptTrace]⟩

/-- C6: in every invocation, the calls and waits form `attemptTrace d 0 k`
for some `k ≤ retries`: the backoff waited before attempt `i` (for every
`i ≥ 1`) is exactly `initialDelay * 2^(i-1)`, no delay is waited before
attempt 0, and none after the terminal outcome (the pattern ends with a
call, never a wait). -/
theorem backoff_delay_schedule (t : Transport) (o : RequestOptions)
    (r : Int) (d : Nat) (dev : Bool) (s0 : Option String) :
    ∃ k, k ≤ r.toNat ∧
      callWaitTrace (fetchWithRetry t o r d dev s0).events =
        attemptTrace d 0 k := by
  obtain ⟨k, h1, -, h3⟩ := fetchLoop_callWaitTrace t o r d dev r.toNat 0 s0
    (by omega)
  exact ⟨k, h1, h3⟩

/- ### Claim C4 -/

/-- Loop-level store policy: the `sessionCookie` key is written exactly when
the run returns a success response carrying a Set-Cookie header (lines
68-71); every other path — including failed attempts whose responses carry
Set-Cookie — leaves storage untouched and performs no write. -/
theorem fetchLoop_store_policy (t : Transport) (o : RequestOptions) (r : Int)
    (d : Nat) (dev : Bool) :
    ∀ fuel i s,
      (∀ resp, (fetchLoop t o r d dev i fuel s).outcome = .success resp →
        (fetchLoop t o r d dev i fuel s).storage = resp.setCookie.or s ∧
        ∀ c, resp.setCookie = some c →
          Event.store c ∈ (fetchLoop t o r d dev i fuel s).events) ∧
      ((∀ resp, (fetchLoop t o r d dev i fuel s).outcome ≠ .success resp) →
        (fetchLoop t o r d dev i fuel s).storage = s ∧
        ∀ c, Event.store c ∉ (fetchLoop t o r d dev i fuel s).events) := by
  intro fuel
  induction fuel with
  | zero =>
    intro i s
    rw [fetchLoop_fuel_zero]
    exact ⟨fun resp h => absurd h (by simp), fun _ => ⟨rfl, by simp⟩⟩
  | succ f ih =>
    intro i s
    have onRetry : ∀ es,
        es = (fetchLoop t o r d dev (i+1) f s).events →
        (∀ resp,
          (⟨Event.readCookie s :: Event.call i (buildHeaders i o.headers s) ::
              Event.wait (d * 2^i) :: es,
            (fetchLoop t o r d dev (i+1) f s).outcome,
            (fetchLoop t o r d dev (i+1) f s).storage⟩ : RunResult).outcome =
            .success resp →
          (⟨Event.readCookie s :: Event.call i (buildHeaders i o.headers s) ::
              Event.wait (d * 2^i) :: es,
            (fetchLoop t o r d dev (i+1) f s).outcome,
            (fetchLoop t o r d dev (i+1) f s).storage⟩ : RunResult).storage =
            resp.setCookie.or s ∧
          ∀ c, resp.setCookie = some c →
            Event.store c ∈ Event.readCookie s ::
              Event.call i (buildHeaders i o.headers s) ::
              Event.wait (d * 2^i) :: es) ∧
        ((∀ resp,
          (⟨Event.readCookie s :: Event.call i (buildHeaders i o.headers s) ::
              Event.wait (d * 2^i) :: es,
            (fetchLoop t o r d dev (i+1) f s).outcome,
            (fetchLoop t o r d dev (i+1) f s).storage⟩ : RunResult).outcome ≠
            .success resp) →
          (fetchLoop t o r d dev (i+1) f s).storage = s ∧
          ∀ c, Event.store c ∉ Event.readCookie s ::
            Event.call i (buildHeaders i o.headers s) ::
            Event.wait (d * 2^i) :: es) := by
      intro es hes
      subst hes
      obtain ⟨ih1, ih2⟩ := ih (i+1) s
      constructor
      · intro resp hre
        obtain ⟨hs, hm⟩ := ih1 resp hre
        refine ⟨hs, fun c hc => ?_⟩
        exact List.mem_cons_of_mem _ (List.mem_cons_of_mem _
          (List.mem_cons_of_mem _ (hm c hc)))
      · intro hne
        obtain ⟨hs, hm⟩ := ih2 hne
        refine ⟨hs, fun c hmem => ?_⟩
        rcases List.mem_cons.mp hmem with heq | hmem
        · exact absurd heq (by simp)
        rcases List.mem_cons.mp hmem with heq | hmem
        · exact absurd heq (by simp)
        rcases List.mem_cons.mp hmem with heq | hmem
        · exact absurd heq (by simp)
        · exact hm c hmem
    rcases hti : t i with msg | resp'
    · by_cases hg : (i : Int) < r - 1
      · rw [fetchLoop_error_retry t o r d dev i f s msg hti hg]
        exact onRetry _ rfl
      · rw [fetchLoop_error_last t o r d dev i f s msg hti hg]
        exact ⟨fun resp h => absurd h (by simp), fun _ => ⟨rfl, by simp⟩⟩
    · cases hok : resp'.ok
      · by_cases hg : (i : Int) < r - 1
        · rw [fetchLoop_fail_retry t o r d dev i f s resp' hti hok hg]
          exact onRetry _ rfl
        · rw [fetchLoop_fail_last t o r d dev i f s resp' hti hok hg]
          exact ⟨fun resp h => absurd h (by simp), fun _ => ⟨rfl, by simp⟩⟩
      · rcases hsc : resp'.setCookie with - | c
        · rw [fetchLoop_success_plain t o r d dev i f s resp' hti hok hsc]
          constructor
          · intro resp hre
            have hre' : FetchOutcome.success resp' = .success resp := hre
            injection hre' with e
            subst e
            rw [hsc]
            exact ⟨rfl, fun c hc => absurd hc (by simp)⟩
          · intro hne
            exact absurd rfl (hne resp')
        · rw [fetchLoop_success_store t o r d dev i f s resp' c hti hok hsc]
          constructor
          · intro resp hre
            have hre' : FetchOutcome.success resp' = .success resp := hre
            injection hre' with e
            subst e
            rw [hsc]
            refine ⟨rfl, fun c' hc' => ?_⟩
            injection hc' with e'
            subst e'
            simp
          · intro hne
            exact absurd rfl (hne resp')

/-- C4 (amended): a Set-Cookie header is persisted to the `sessionCookie`
storage key only on the success response: when the run returns a response
carrying `Set-Cookie`, that value is written (overwriting any previous
value) before the response is returned; on every other attempt — a failed
attempt that is retried or the terminal failure — a Set-Cookie header is
ignored and storage is never written. -/
theorem setCookie_persisted_on_success_only (t : Transport)
    (o : RequestOptions) (r : Int) (d : Nat) (dev : Bool)
    (s0 : Option String) :
    (∀ resp, (fetchWithRetry t o r d dev s0).outcome = .success resp →
      (fetchWithRetry t o r d dev s0).storage = resp.setCookie.or s0 ∧
      ∀ c, resp.setCookie = some c →
        Event.store c ∈ (fetchWithRetry t o r d dev s0).events) ∧
    ((∀ resp, (fetchWithRetry t o r d dev s0).outcome ≠ .success resp) →
      (fetchWithRetry t o r d dev s0).storage = s0 ∧
      ∀ c, Event.store c ∉ (fetchWithRetry t o r d dev s0).events) :=
  fetchLoop_store_policy t o r d dev r.toNat 0 s0

/-- Witness for C4 (amended): a success response carrying
`Set-Cookie: sid=xyz` ends the run with storage holding `sid=xyz`,
overwriting the previous value `old`. -/
theorem setCookie_persisted_on_success_only_check :
    (fetchWithRetry (fun _ => .ok ⟨200, "", some "sid=xyz"⟩) {} 1 300 false
      (some "old")).storage = some "sid=xyz" ∧
    Event.store "sid=xyz" ∈ (fetchWithRetry
      (fun _ => .ok ⟨200, "", some "sid=xyz"⟩) {} 1 300 false
      (some "old")).events := by
  have h := (setCookie_persisted_on_success_only
    (fun _ => .ok ⟨200, "", some "sid=xyz"⟩) {} 1 300 false (some "old")).1
    ⟨200, "", some "sid=xyz"⟩ (by decide)
  exact ⟨h.1, h.2 "sid=xyz" rfl⟩

/-- C4 counterexample: a failed (HTTP 403, later retried) attempt whose
response carries `Set-Cookie: sid=xyz` is NOT persisted — the invocation
ends in success with storage still empty and no write in its trace,
refuting the claim that the value is written on any attempt. -/
theorem setCookie_on_failed_attempt_ignored :
    (fetchWithRetry
      (fun j => if j = 0 then .ok ⟨403, "denied", some "sid=xyz"⟩
        else .ok ⟨200, "fine", none⟩) {} 2 300 false none).storage = none ∧
    Event.store "sid=xyz" ∉ (fetchWithRetry
      (fun j => if j = 0 then .ok ⟨403, "denied", some "sid=xyz"⟩
        else .ok ⟨200, "fine", none⟩) {} 2 300 false none).events ∧
    (fetchWithRetry
      (fun j => if j = 0 then .ok ⟨403, "denied", some "sid=xyz"⟩
        else .ok ⟨200, "fine", none⟩) {} 2 300 false none).outcome =
      .success ⟨200, "fine", none⟩ := by
  decide

/- ### Claim C2 -/

theorem waitsOf_nil : waitsOf [] = [] := rfl

theorem waitsOf_cons_readCookie (v : Option String) (es : List Event) :
    waitsOf (.readCookie v :: es) = waitsOf es := by
  simp [waitsOf]

theorem waitsOf_cons_call (i : Nat) (h : Headers) (es : List Event) :
    waitsOf (.call i h :: es) = waitsOf es := by
  simp [waitsOf]

theorem waitsOf_cons_wait (m : Nat) (es : List Event) :
    waitsOf (.wait m :: es) = m :: waitsOf es := by
  simp [waitsOf]

theorem range_pow_shift (d k i : Nat) :
    (List.range (k+1)).map (fun j => d * 2 ^ (i + j)) =
      d * 2 ^ i :: (List.range k).map (fun j => d * 2 ^ (i + 1 + j)) := by
  rw [List.range_succ_eq_map, List.map_cons, List.map_map]
  refine List.cons_eq_cons.mpr ⟨?_, ?_⟩
  · show d * 2 ^ (i + 0) = d * 2 ^ i
    rw [Nat.add_zero]
  · apply List.map_congr_left
    intro a _
    show d * 2 ^ (i + (a + 1)) = d * 2 ^ (i + 1 + a)
    rw [show i + (a + 1) = i + 1 + a from by omega]

/-- Loop-level form of C2: when every attempt yields a non-2xx response (of
any status, 403 or not) and the diagnostic log does not interfere, every
remaining attempt is made, each non-final attempt waits its backoff delay,
and the run ends in the exhaustion error wrapping the final attempt's
`HTTP status - body` failure. -/
theorem fetchLoop_allHttpFail (t : Transport) (o : RequestOptions) (d : Nat)
    (dev : Bool) (rs : Nat → Response) (ht : ∀ j, t j = .ok (rs j))
    (hok : ∀ j, (rs j).ok = false)
    (hlog : (dev && logPayloadThrows o.body) = false) (n : Nat) :
    ∀ fuel i s, i + fuel = n → 1 ≤ fuel →
      countCalls (fetchLoop t o (n : Int) d dev i fuel s).events = fuel ∧
      waitsOf (fetchLoop t o (n : Int) d dev i fuel s).events =
        (List.range (fuel - 1)).map (fun j => d * 2^(i+j)) ∧
      (fetchLoop t o (n : Int) d dev i fuel s).outcome =
        .exhausted (n : Int)
          (some (.httpErr (rs (n-1)).status (rs (n-1)).body)) ∧
      (fetchLoop t o (n : Int) d dev i fuel s).storage = s := by
  intro fuel
  induction fuel with
  | zero => intro i s _ h1; exact absurd h1 (by omega)
  | succ f ih =>
    intro i s hn _
    by_cases hg : (i : Int) < (n : Int) - 1
    · have hf : 1 ≤ f := by omega
      rw [fetchLoop_fail_retry t o (n : Int) d dev i f s (rs i) (ht i)
        (hok i) hg]
      obtain ⟨h1, h2, h3, h4⟩ := ih (i+1) s (by omega) hf
      refine ⟨?_, ?_, h3, h4⟩
      · rw [countCalls_cons_readCookie, countCalls_cons_call,
          countCalls_cons_wait, h1]
      · rw [waitsOf_cons_readCookie, waitsOf_cons_call, waitsOf_cons_wait, h2]
        obtain ⟨f', rfl⟩ : ∃ f', f = f' + 1 := ⟨f - 1, by omega⟩
        simp only [Nat.add_sub_cancel]
        exact (range_pow_shift d f' i).symm
    · have hf : f = 0 := by omega
      have hi : i = n - 1 := by omega
      rw [fetchLoop_fail_last t o (n : Int) d dev i f s (rs i) (ht i)
        (hok i) hg]
      subst hf
      refine ⟨by rw [countCalls_cons_readCookie, countCalls_cons_call,
          countCalls_nil],
        by rw [waitsOf_cons_readCookie, waitsOf_cons_call, waitsOf_nil]; rfl,
        ?_, rfl⟩
      rw [hlog]
      simp only [Bool.false_eq_true, if_false, hi]

/-- C2 (amended): for every `retries = n ≥ 1` and every sequence of non-2xx
responses — with no status distinguished: 403s and any other non-success
statuses are equally retry-eligible — the client waits the backoff delay
and retries while attempts remain, and on the final attempt raises the
terminal exhaustion error carrying the last response's HTTP status code and
body text; provided the per-attempt diagnostic log does not itself throw
(production builds, or a request body that is absent, empty, or valid
JSON — see the logging defect of C9). -/
theorem nonOk_retry_until_exhausted (t : Transport) (o : RequestOptions)
    (d : Nat) (dev : Bool) (s0 : Option String) (rs : Nat → Response)
    (ht : ∀ j, t j = .ok (rs j)) (hok : ∀ j, (rs j).ok = false)
    (hlog : (dev && logPayloadThrows o.body) = false) (n : Nat)
    (hn : 1 ≤ n) :
    countCalls (fetchWithRetry t o (n : Int) d dev s0).events = n ∧
    waitsOf (fetchWithRetry t o (n : Int) d dev s0).events =
      (List.range (n - 1)).map (fun j => d * 2^j) ∧
    (fetchWithRetry t o (n : Int) d dev s0).outcome =
      .exhausted (n : Int)
        (some (.httpErr (rs (n-1)).status (rs (n-1)).body)) ∧
    (fetchWithRetry t o (n : Int) d dev s0).outcome.raisedMessage =
      some (exhaustWrapMsg (n : Int)
        ("HTTP " ++ toString (rs (n-1)).status ++ " - " ++ (rs (n-1)).body)) ∧
    (fetchWithRetry t o (n : Int) d dev s0).storage = s0 := by
  unfold fetchWithRetry
  rw [show ((n : Int)).toNat = n by simp]
  obtain ⟨h1, h2, h3, h4⟩ := fetchLoop_allHttpFail t o d dev rs ht hok hlog
    n n 0 s0 (by omega) hn
  refine ⟨h1, ?_, h3, by rw [h3]; rfl, h4⟩
  rw [h2]
  apply List.map_congr_left
  intro a _
  rw [Nat.zero_add]

/-- Witness for C2 (amended) at `n = 2` with constant HTTP 500 responses:
two calls, one backoff wait of 300ms, and the literal terminal message. -/
theorem nonOk_retry_until_exhausted_check :
    countCalls (fetchWithRetry (fun _ => .ok ⟨500, "boom", none⟩) {}
      ((2 : Nat) : Int) 300 false none).events = 2 ∧
    waitsOf (fetchWithRetry (fun _ => .ok ⟨500, "boom", none⟩) {}
      ((2 : Nat) : Int) 300 false none).events = [300] ∧
    (fetchWithRetry (fun _ => .ok ⟨500, "boom", none⟩) {}
      ((2 : Nat) : Int) 300 false none).outcome.raisedMessage =
      some "Fetch failed after 2 attempts: HTTP 500 - boom" := by
  obtain ⟨h1, h2, h3, h4, h5⟩ := nonOk_retry_until_exhausted
    (fun _ => .ok ⟨500, "boom", none⟩) {} 300 false none
    (fun _ => ⟨500, "boom", none⟩) (fun _ => rfl) (fun _ => rfl)
    (by decide) 2 (by norm_num)
  exact ⟨h1, by rw [h2]; rfl, h4⟩

/-- C2 counterexample: the claim as stated fails in a dev build when the
caller's body is not valid JSON: on the final non-2xx (HTTP 404) attempt
the diagnostic log's `JSON.parse` throws first, so the terminal error wraps
the parse failure and does not carry the HTTP status and body text. -/
theorem nonOk_terminal_error_dev_log_counterexample :
    (fetchWithRetry (fun _ => .ok ⟨404, "missing", none⟩) ⟨[], some "["⟩ 1
      300 true none).outcome = .exhausted 1 (some (.jsonParseErr "[")) ∧
    (fetchWithRetry (fun _ => .ok ⟨404, "missing", none⟩) ⟨[], some "["⟩ 1
      300 true none).outcome ≠
      .exhausted 1 (some (.httpErr 404 "missing")) := by
  decide

/- ### Claim C9 -/

/-- C9 (code defect): the per-attempt diagnostic log is not best-effort. In
a dev build, when the caller's body is a non-empty string that is not valid
JSON (here the single brace `\x7b`), the log's unguarded
`JSON.parse(options.body)` throws; the exception is swallowed by the retry
`catch` but replaces the terminal failure: the same input in a production
build (logging disabled) terminates with the `HTTP 500 - oops` error, while
the dev build terminates with the JSON parse error — logging both raised
and changed the produced outcome. -/
theorem devLog_jsonParse_throw_changes_outcome :
    jsonValid "\x7b" = false ∧
    (fetchWithRetry (fun _ => .ok ⟨500, "oops", none⟩) ⟨[], some "\x7b"⟩ 1
      300 true none).outcome = .exhausted 1 (some (.jsonParseErr "\x7b")) ∧
    (fetchWithRetry (fun _ => .ok ⟨500, "oops", none⟩) ⟨[], some "\x7b"⟩ 1
      300 false none).outcome = .exhausted 1 (some (.httpErr 500 "oops")) := by
  decide

end Cravii
